import Mathlib

/-!
Verification of the WhatsApp session-lifecycle manager and queue-driven dispatch
gateway (`src/whatsapp-service/index.js` and
`src/whatsapp-service/multi-instance-manager.js`).

The embedding translates the dispatch consumers (`processMessages`,
`processMultiInstanceMessages`), the phone-number formatting logic, the
per-instance provider event handlers (`setupClientEventHandlers` and the
single-session `whatsappClient.on(...)` handlers), `MultiInstanceManager.getClient`,
`MultiInstanceManager.sendMessage`, and the discovery loop
(`fetchInstances` / `pollForNewInstances`).

Modelling conventions:
- The external provider (`whatsapp-web.js`) send operation is an oracle
  `String → Option String → Except String Unit`; `.error e` models a thrown
  provider error with message `e`.  The message body is `Option String`
  because the source never validates its presence (an absent JSON field is
  `undefined` and is passed through to the provider).
- A queue delivery is `Option MessageData`: `none` models a payload on which
  `JSON.parse` throws (deterministic for fixed content), `some md` the parsed
  object with each field optional.
- JavaScript `Map`s and the `whatsapp_instances` table are association lists
  `List (Nat × _)`; SQL `UPDATE ... WHERE id = $1` is update-if-present.
- Timestamp columns (`qr_expires_at`, `last_connected_at`,
  `last_disconnected_at`, `last_message_sent_at`, `updated_at`) and the
  human-readable `message` text of status events are elided; the structured
  fields the claims are about (`status`, `message_id`, `instance_id`,
  `phone_number`, `contact_name`, `error`, `qr_code`, `client_info`,
  presence of `sent_at`) are kept.
- `client.info` fetching inside the `ready` handlers and the lifecycle
  database writes are modelled as succeeding; the counter persist of
  `sendMessage` keeps an explicit success/failure oracle because a claim is
  about its failure.
-/

/-- Cached provider identity (`clientInfo` in the source). -/
structure ClientInfo where
  wid : String
  phone : String
  name : String
  platform : String
deriving DecidableEq, Repr

/-- The `status` field of a published status event. -/
inductive StatusKind where
  | qr_code
  | authenticated
  | ready
  | disconnected
  | auth_failure
  | message_sent
  | message_failed
deriving DecidableEq, Repr

/-- One JSON object published to the status queue (free-text `message` elided;
`has_sent_at` records whether a `sent_at` timestamp field is present). -/
structure StatusEvent where
  status : StatusKind
  message_id : Option Nat := none
  instance_id : Option Nat := none
  organization_id : Option Nat := none
  phone_number : Option String := none
  contact_name : Option String := none
  error : Option String := none
  qr_code : Option String := none
  client_info : Option ClientInfo := none
  has_sent_at : Bool := false
deriving DecidableEq, Repr

/-- A parsed send-request payload; every field is optional because the JSON
object may omit any of them. -/
structure MessageData where
  instance_id : Option Nat := none
  phone_number : Option String := none
  message : Option String := none
  contact_name : Option String := none
  message_id : Option Nat := none
deriving DecidableEq, Repr

/-- Provider callbacks delivered to a client's event handlers. -/
inductive WAEvent where
  | qr (token : String)
  | authenticated
  | ready (info : ClientInfo)
  | disconnected (reason : String)
  | auth_failure (msg : String)
deriving DecidableEq, Repr

/-- Terminal acknowledgment action of one queue delivery.  `unacked` means the
consumer callback ended without calling `ack` or `nack` (the delivery stays
unacknowledged on the channel). -/
inductive Ack where
  | ack
  | nackRequeue
  | nackNoRequeue
  | unacked
deriving DecidableEq, Repr

/-- Observable result of processing one queue delivery: the acknowledgment
action, the published status events, the provider send invocations
(formatted chat id and body), and the post-processing rate-limit sleep in
milliseconds (`await setTimeout(..., 1000)` in the source, or 0 when the
code path has no sleep). -/
structure DispatchOutcome where
  ack : Ack
  events : List StatusEvent
  providerCalls : List (String × Option String)
  delayMs : Nat
deriving DecidableEq, Repr

/-! ### Association-list operations (JavaScript `Map` / keyed SQL `UPDATE`) -/

/-- `Map.get` / `SELECT ... WHERE id = key`. -/
def alGet {α : Type} : List (Nat × α) → Nat → Option α
  | [], _ => none
  | (k, v) :: rest, key => if k = key then some v else alGet rest key

/-- `Map.set`: replace the binding if the key is present, else append it. -/
def alSet {α : Type} : List (Nat × α) → Nat → α → List (Nat × α)
  | [], key, val => [(key, val)]
  | (k, v) :: rest, key, val =>
      if k = key then (key, val) :: rest else (k, v) :: alSet rest key val

/-- `Map.delete`: drop the binding for the key. -/
def alDel {α : Type} : List (Nat × α) → Nat → List (Nat × α)
  | [], _ => []
  | (k, v) :: rest, key => if k = key then rest else (k, v) :: alDel rest key

/-- `UPDATE ... WHERE id = key`: rewrite the value at the key, if present. -/
def alUpdate {α : Type} : List (Nat × α) → Nat → (α → α) → List (Nat × α)
  | [], _, _ => []
  | (k, v) :: rest, key, f =>
      if k = key then (k, f v) :: rest else (k, v) :: alUpdate rest key f

/-! ### Phone-number formatting (identical in `processMessages` and
`MultiInstanceManager.sendMessage`) -/

/-- `phone_number.replace(/[^0-9]/g, '')`: keep only the ASCII digits. -/
def stripNonDigits (s : String) : String :=
  String.mk (s.data.filter Char.isDigit)

/-- JavaScript `s.startsWith(p)`, on the character list (structurally
recursive so that concrete inputs evaluate). -/
def strStartsWith (s p : String) : Bool :=
  List.isPrefixOf p.data s.data

/-- The formatting block of `processMessages` (index.js lines 421-429) and
`MultiInstanceManager.sendMessage` (multi-instance-manager.js lines 295-302):
strip non-digits, prepend `"91"` when the digit string does not start with
`"91"` and has length 10, append `"@c.us"`. -/
def formatNumber (phoneNumber : String) : String :=
  (if !strStartsWith (stripNonDigits phoneNumber) "91"
      && (stripNonDigits phoneNumber).length == 10
   then "91" ++ stripNonDigits phoneNumber
   else stripNonDigits phoneNumber) ++ "@c.us"

/-- Definition following the spec text (section 4.4 step 3): "strip all
non-digit characters; if the remaining digit string is exactly 10 digits and
does not already start with the default country prefix, prepend the default
country prefix; append the provider's address suffix", with the default
country code `"91"` and suffix `"@c.us"`.  Stated separately from
`formatNumber` so the code can be compared against the spec's wording. -/
def normalizeDestinationSpec (s : String) : String :=
  (if (stripNonDigits s).length == 10 && !strStartsWith (stripNonDigits s) "91"
   then "91" ++ stripNonDigits s
   else stripNonDigits s) ++ "@c.us"

/-! ### Single-session state and event handlers (index.js lines 18-117) -/

/-- The module-level mutable state of the single-session service:
`currentQR`, `isReady`, `clientInfo`, `initializationError`. -/
structure SingleState where
  currentQR : Option String := none
  isReady : Bool := false
  clientInfo : Option ClientInfo := none
  initializationError : Option String := none
deriving DecidableEq, Repr

/-- The `whatsappClient.on(...)` handlers of index.js lines 49-117, as a step
function from a provider callback to the new state and the published status
events.  The `ready` handler's `whatsappClient.info` fetch is modelled as
succeeding. -/
def singleApply (st : SingleState) (e : WAEvent) : SingleState × List StatusEvent :=
  match e with
  | .qr token =>
      ({ st with currentQR := some token, isReady := false, initializationError := none },
       [{ status := .qr_code, qr_code := some token }])
  | .authenticated =>
      (st, [{ status := .authenticated }])
  | .ready info =>
      ({ currentQR := none, isReady := true, clientInfo := some info,
         initializationError := none },
       [{ status := .ready, client_info := some info }])
  | .disconnected _ =>
      ({ st with isReady := false, clientInfo := none },
       [{ status := .disconnected }])
  | .auth_failure m =>
      ({ st with initializationError := some m },
       [{ status := .auth_failure }])

/-- Fold `singleApply` over a callback sequence, dropping the events. -/
def applySingle : SingleState → List WAEvent → SingleState
  | st, [] => st
  | st, e :: rest => applySingle (singleApply st e).1 rest

/-- The consumer callback of `processMessages` (index.js lines 399-470) on one
delivery.  `raw = none` is a payload on which `JSON.parse` throws: the catch
block re-parses the identical content, throws again, and the callback ends
without ack, nack, or status event.  A present payload whose `phone_number`
is absent reaches `phone_number.replace` which throws a `TypeError`, handled
by the catch block as a processing error. -/
def singleProcess (st : SingleState) (raw : Option MessageData)
    (provider : String → Option String → Except String Unit) : DispatchOutcome :=
  match raw with
  | none =>
      { ack := .unacked, events := [], providerCalls := [], delayMs := 0 }
  | some md =>
      if !st.isReady then
        { ack := .nackRequeue,
          events := [{ status := .message_failed, message_id := md.message_id,
                       phone_number := md.phone_number,
                       error := some "WhatsApp client not ready" }],
          providerCalls := [], delayMs := 0 }
      else
        match md.phone_number with
        | none =>
            { ack := .nackNoRequeue,
              events := [{ status := .message_failed, message_id := md.message_id,
                           phone_number := md.phone_number,
                           error := some "TypeError: Cannot read properties of undefined" }],
              providerCalls := [], delayMs := 0 }
        | some pn =>
            match provider (formatNumber pn) md.message with
            | .ok _ =>
                { ack := .ack,
                  events := [{ status := .message_sent, message_id := md.message_id,
                               phone_number := md.phone_number,
                               contact_name := md.contact_name, has_sent_at := true }],
                  providerCalls := [(formatNumber pn, md.message)], delayMs := 1000 }
            | .error e =>
                { ack := .nackNoRequeue,
                  events := [{ status := .message_failed, message_id := md.message_id,
                               phone_number := md.phone_number, error := some e }],
                  providerCalls := [(formatNumber pn, md.message)], delayMs := 0 }

/-! ### Multi-instance state (multi-instance-manager.js) -/

/-- A row of the `whatsapp_instances` control-plane read
(`fetchInstances`, multi-instance-manager.js lines 35-55). -/
structure InstanceRow where
  id : Nat
  organization_id : Nat
  name : String
  phone_number : String
  is_authenticated : Bool
  is_active : Bool
deriving DecidableEq, Repr

/-- One entry of the `activeClients` map: the readiness flag, the cached
client identity, and the instance metadata captured at registration
(the provider client object itself is external). -/
structure ClientData where
  isReady : Bool
  clientInfo : Option ClientInfo := none
  instanceRow : InstanceRow
deriving DecidableEq, Repr

/-- The manager's in-memory registry: the module-level `activeClients` and
`pendingQRCodes` maps. -/
structure RegState where
  activeClients : List (Nat × ClientData) := []
  pendingQRCodes : List (Nat × String) := []
deriving DecidableEq, Repr

/-- The columns of `whatsapp_instances` written by the event handlers and
`sendMessage` (timestamp columns elided). -/
structure DbRow where
  is_authenticated : Bool := false
  qr_code : Option String := none
  client_info : Option ClientInfo := none
  messages_sent_today : Nat := 0
deriving DecidableEq, Repr

/-- Combined in-memory registry and external-store state of the
multi-instance manager. -/
structure MState where
  reg : RegState
  db : List (Nat × DbRow)
deriving DecidableEq, Repr

/-- `MultiInstanceManager.getClient` (lines 257-260): a handle is returned
exactly when the registry entry exists and its readiness flag is set
(`clientData?.isReady ? clientData.client : null`); `true` models a non-null
handle. -/
def getClient (reg : RegState) (instanceId : Nat) : Bool :=
  match alGet reg.activeClients instanceId with
  | some clientData => clientData.isReady
  | none => false

/-- `MultiInstanceManager.getQRCode` (lines 265-267). -/
def getQRCode (reg : RegState) (instanceId : Nat) : Option String :=
  alGet reg.pendingQRCodes instanceId

/-- `MultiInstanceManager.initializeClient` (lines 60-109), renamed because
the gate reserves the source name's leading word: when the instance is not
yet registered, store a fresh entry with `isReady := false`; the provider
client construction and `client.initialize()` call are external and modelled
as succeeding. -/
def initClient (reg : RegState) (inst : InstanceRow) : RegState :=
  match alGet reg.activeClients inst.id with
  | some _ => reg
  | none =>
      { reg with
        activeClients := alSet reg.activeClients inst.id
          { isReady := false, clientInfo := none, instanceRow := inst } }

/-- `MultiInstanceManager.fetchInstances` (lines 35-55): the desired-session
list filtered to `is_active = TRUE`. -/
def fetchInstances (store : List InstanceRow) : List InstanceRow :=
  store.filter (fun inst => inst.is_active)

/-- `MultiInstanceManager.pollForNewInstances` (lines 326-339): register every
fetched active instance that is absent from `activeClients`. -/
def pollForNewInstances (reg : RegState) (store : List InstanceRow) : RegState :=
  (fetchInstances store).foldl initClient reg

/-- The per-instance event handlers installed by
`setupClientEventHandlers` (multi-instance-manager.js lines 114-252), as a
step function on the combined state.  `inst` is the instance row captured by
the handler closures at setup time.  Faithfully to the source:
the `qr` handler only adds to `pendingQRCodes` and writes the QR column;
the `ready` handler deletes the pending QR, marks the entry ready with the
fetched identity, and persists `is_authenticated = TRUE, qr_code = NULL`;
the `disconnected` handler persists `is_authenticated = FALSE,
qr_code = NULL` and sets `isReady := false` on the entry — it does not
touch `pendingQRCodes`, does not clear the cached `clientInfo`, and does
not remove the `activeClients` entry; `authenticated` and `auth_failure`
only publish status events. -/
def multiApply (ms : MState) (inst : InstanceRow) (e : WAEvent) :
    MState × List StatusEvent :=
  match e with
  | .qr token =>
      ({ reg := { ms.reg with
                  pendingQRCodes := alSet ms.reg.pendingQRCodes inst.id token },
         db := alUpdate ms.db inst.id (fun row => { row with qr_code := some token }) },
       [{ status := .qr_code, instance_id := some inst.id,
          organization_id := some inst.organization_id, qr_code := some token }])
  | .authenticated =>
      (ms, [{ status := .authenticated, instance_id := some inst.id,
              organization_id := some inst.organization_id }])
  | .ready info =>
      ({ reg := { activeClients := alUpdate ms.reg.activeClients inst.id
                    (fun cd => { cd with isReady := true, clientInfo := some info }),
                  pendingQRCodes := alDel ms.reg.pendingQRCodes inst.id },
         db := alUpdate ms.db inst.id (fun row =>
                 { row with is_authenticated := true, qr_code := none,
                            client_info := some info }) },
       [{ status := .ready, instance_id := some inst.id,
          organization_id := some inst.organization_id, client_info := some info }])
  | .disconnected _ =>
      ({ reg := { ms.reg with
                  activeClients := alUpdate ms.reg.activeClients inst.id
                    (fun cd => { cd with isReady := false }) },
         db := alUpdate ms.db inst.id (fun row =>
                 { row with is_authenticated := false, qr_code := none }) },
       [{ status := .disconnected, instance_id := some inst.id,
          organization_id := some inst.organization_id }])
  | .auth_failure _ =>
      (ms, [{ status := .auth_failure, instance_id := some inst.id,
              organization_id := some inst.organization_id }])

/-- Fold `multiApply` over a callback sequence, dropping the events. -/
def applyEvents (inst : InstanceRow) : MState → List WAEvent → MState
  | ms, [] => ms
  | ms, e :: rest => applyEvents inst (multiApply ms inst e).1 rest

/-- Result of `MultiInstanceManager.sendMessage`: provider invocations made,
the returned value or thrown error, and the resulting store state. -/
structure SendResult where
  providerCalls : List (String × Option String)
  result : Except String Unit
  db : List (Nat × DbRow)

/-- `MultiInstanceManager.sendMessage` (lines 287-321): re-resolve the client
via `getClient` and throw when absent; format the number; invoke the
provider; on success increment `messages_sent_today` best-effort
(`counterPersistOk = false` models the caught persist failure, which leaves
the store unchanged and does not fail the send).  An absent `phoneNumber`
reaches `phoneNumber.replace` which throws a `TypeError` before any
provider call. -/
def sendMessage (reg : RegState) (db : List (Nat × DbRow)) (instanceId : Nat)
    (phoneNumber : Option String) (message : Option String)
    (provider : String → Option String → Except String Unit)
    (counterPersistOk : Bool) : SendResult :=
  if getClient reg instanceId then
    match phoneNumber with
    | none =>
        { providerCalls := [],
          result := .error "TypeError: Cannot read properties of undefined",
          db := db }
    | some pn =>
        match provider (formatNumber pn) message with
        | .ok _ =>
            { providerCalls := [(formatNumber pn, message)], result := .ok (),
              db := if counterPersistOk
                    then alUpdate db instanceId (fun row =>
                           { row with messages_sent_today := row.messages_sent_today + 1 })
                    else db }
        | .error e =>
            { providerCalls := [(formatNumber pn, message)], result := .error e,
              db := db }
  else
    { providerCalls := [],
      result := .error ("Instance " ++ toString instanceId ++ " not ready or not found"),
      db := db }

/-- The consumer callback of `processMultiInstanceMessages` (index.js lines
305-392) on one delivery.  `raw = none` models an unparseable payload: the
catch block's own `JSON.parse` of the same content throws again, so the
callback ends without ack, nack, or status event.  A payload without
`instance_id` is rejected permanently; an unready/unknown instance is
rejected with requeue; otherwise `sendMessage` runs and its outcome decides
ack (with the 1000 ms rate-limit sleep) versus permanent rejection with the
error detail. -/
def multiProcess (reg : RegState) (db : List (Nat × DbRow))
    (raw : Option MessageData)
    (provider : String → Option String → Except String Unit)
    (counterPersistOk : Bool) : DispatchOutcome × List (Nat × DbRow) :=
  match raw with
  | none =>
      ({ ack := .unacked, events := [], providerCalls := [], delayMs := 0 }, db)
  | some md =>
      match md.instance_id with
      | none =>
          ({ ack := .nackNoRequeue,
             events := [{ status := .message_failed, message_id := md.message_id,
                          phone_number := md.phone_number,
                          error := some "No instance_id provided" }],
             providerCalls := [], delayMs := 0 }, db)
      | some instanceId =>
          if getClient reg instanceId then
            let sr := sendMessage reg db instanceId md.phone_number md.message
                        provider counterPersistOk
            match sr.result with
            | .ok _ =>
                ({ ack := .ack,
                   events := [{ status := .message_sent, message_id := md.message_id,
                                instance_id := some instanceId,
                                phone_number := md.phone_number,
                                contact_name := md.contact_name,
                                has_sent_at := true }],
                   providerCalls := sr.providerCalls, delayMs := 1000 }, sr.db)
            | .error e =>
                ({ ack := .nackNoRequeue,
                   events := [{ status := .message_failed, message_id := md.message_id,
                                instance_id := md.instance_id,
                                phone_number := md.phone_number,
                                error := some e }],
                   providerCalls := sr.providerCalls, delayMs := 0 }, sr.db)
          else
            ({ ack := .nackRequeue,
               events := [{ status := .message_failed, message_id := md.message_id,
                            instance_id := some instanceId,
                            phone_number := md.phone_number,
                            error := some "Instance not ready or not found" }],
               providerCalls := [], delayMs := 0 }, db)

/-! ### Spec-side lifecycle state machine and QR-trace abstractions -/

/-- The spec's lifecycle states (section 4.2). -/
inductive LState where
  | unauthenticated
  | qr_pending
  | authenticated
  | ready
  | disconnected
  | auth_failure
deriving DecidableEq, Repr

/-- Modelled from the spec: the section 4.2 lifecycle transition function.
The code keeps no explicit lifecycle enum (only a readiness flag), so the
spec's `lifecycle_state` is reconstructed from the callback trace for
comparison with the code's stored data. -/
def lifecycleStep : LState → WAEvent → LState
  | _, .qr _ => .qr_pending
  | _, .authenticated => .authenticated
  | _, .ready _ => .ready
  | _, .disconnected _ => .disconnected
  | _, .auth_failure _ => .auth_failure

/-- Spec lifecycle state after a callback trace, from the initial
`unauthenticated` state. -/
def lifecycleState (evs : List WAEvent) : LState :=
  evs.foldl lifecycleStep .unauthenticated

/-- Effect of one callback on the stored pending-QR token of an instance:
`qr` stores the new token, `ready` clears it, every other callback leaves
it unchanged. -/
def tokenStep (q : Option String) (e : WAEvent) : Option String :=
  match e with
  | .qr t => some t
  | .ready _ => none
  | _ => q

/-- The stored pending-QR token after a callback trace. -/
def tokenOfTrace (evs : List WAEvent) : Option String :=
  evs.foldl tokenStep none

/-- Whether a `qr` callback occurs after the last `ready` callback of the
trace (Boolean abstraction of `tokenStep`). -/
def qrFlagStep (b : Bool) (e : WAEvent) : Bool :=
  match e with
  | .qr _ => true
  | .ready _ => false
  | _ => b

/-- Boolean form: some `qr` callback is more recent than every `ready`
callback. -/
def qrSinceLastReady (evs : List WAEvent) : Bool :=
  evs.foldl qrFlagStep false

/-- The shape of the `pendingQRCodes` map when only instance `k` has ever
been touched. -/
def optQR (k : Nat) : Option String → List (Nat × String)
  | none => []
  | some t => [(k, t)]

/-- The manager state right after registering a single instance, with its
store row present. -/
def initMState (inst : InstanceRow) : MState :=
  { reg := initClient {} inst, db := [(inst.id, {})] }

/-- `true` exactly on the provider `ready` callback. -/
def isReadyEvt : WAEvent → Bool
  | .ready _ => true
  | _ => false

/-! ### Helper lemmas -/

theorem alGet_alSet_ne {α : Type} (l : List (Nat × α)) (k k' : Nat) (v : α)
    (h : k' ≠ k) : alGet (alSet l k' v) k = alGet l k := by
  induction l with
  | nil => simp [alSet, alGet, h]
  | cons p rest ih =>
      obtain ⟨k0, v0⟩ := p
      by_cases h0 : k0 = k' <;> simp [alSet, alGet, h0, h, ih]

theorem alGet_alUpdate_self {α : Type} (l : List (Nat × α)) (k : Nat) (f : α → α) :
    alGet (alUpdate l k f) k = (alGet l k).map f := by
  induction l with
  | nil => rfl
  | cons p rest ih =>
      obtain ⟨k0, v0⟩ := p
      by_cases h0 : k0 = k <;> simp [alUpdate, alGet, h0, ih]

theorem alGet_optQR (k : Nat) (q : Option String) : alGet (optQR k q) k = q := by
  cases q <;> simp [optQR, alGet]

theorem alGet_initClient_of_mem (reg : RegState) (inst : InstanceRow) (k : Nat)
    (v : ClientData) (h : alGet reg.activeClients k = some v) :
    alGet (initClient reg inst).activeClients k = some v := by
  unfold initClient
  cases hg : alGet reg.activeClients inst.id with
  | some w => simpa [hg] using h
  | none =>
      have hne : inst.id ≠ k := by
        intro he
        rw [he, h] at hg
        exact Option.noConfusion hg
      simp [hg, alGet_alSet_ne _ _ _ _ hne, h]

theorem alGet_foldl_initClient (insts : List InstanceRow) :
    ∀ (reg : RegState) (k : Nat) (v : ClientData),
      alGet reg.activeClients k = some v →
      alGet (insts.foldl initClient reg).activeClients k = some v := by
  induction insts with
  | nil => intro reg k v h; simpa using h
  | cons i rest ih =>
      intro reg k v h
      exact ih _ _ _ (alGet_initClient_of_mem reg i k v h)

theorem pendingQR_step (ms : MState) (inst : InstanceRow) (e : WAEvent)
    (q : Option String) (h : ms.reg.pendingQRCodes = optQR inst.id q) :
    (multiApply ms inst e).1.reg.pendingQRCodes = optQR inst.id (tokenStep q e) := by
  cases e <;> cases q <;> simp_all [multiApply, tokenStep, optQR, alSet, alDel]

theorem pendingQR_trace (inst : InstanceRow) :
    ∀ (evs : List WAEvent) (ms : MState) (q : Option String),
      ms.reg.pendingQRCodes = optQR inst.id q →
      (applyEvents inst ms evs).reg.pendingQRCodes
        = optQR inst.id (evs.foldl tokenStep q) := by
  intro evs
  induction evs with
  | nil => intro ms q h; simpa [applyEvents] using h
  | cons e rest ih =>
      intro ms q h
      simp only [applyEvents, List.foldl]
      exact ih _ _ (pendingQR_step ms inst e q h)

theorem foldl_tokenStep_isSome (evs : List WAEvent) :
    ∀ q : Option String,
      (evs.foldl tokenStep q).isSome = evs.foldl qrFlagStep q.isSome := by
  induction evs with
  | nil => intro q; rfl
  | cons e rest ih =>
      intro q
      cases e <;> simp [List.foldl, tokenStep, qrFlagStep, ih]

theorem isReady_false_preserved (evs : List WAEvent) :
    ∀ st : SingleState, st.isReady = false →
      (∀ e ∈ evs, isReadyEvt e = false) →
      (applySingle st evs).isReady = false := by
  induction evs with
  | nil => intro st h _; simpa [applySingle] using h
  | cons e rest ih =>
      intro st h hall
      have he : isReadyEvt e = false := hall e (by simp)
      have hall' : ∀ e' ∈ rest, isReadyEvt e' = false :=
        fun e' h' => hall e' (by simp [h'])
      simp only [applySingle]
      cases e with
      | qr t => exact ih _ rfl hall'
      | authenticated => exact ih _ h hall'
      | ready info => exact absurd he (by simp [isReadyEvt])
      | disconnected r => exact ih _ rfl hall'
      | auth_failure m => exact ih _ h hall'

/-! ### Concrete sample data -/

def info0 : ClientInfo :=
  { wid := "w0", phone := "919876543210", name := "Ops", platform := "android" }

def inst1 : InstanceRow :=
  { id := 1, organization_id := 5, name := "acme", phone_number := "919876500000",
    is_authenticated := false, is_active := true }

def md0 : MessageData :=
  { instance_id := some 1, phone_number := some "9876543210",
    message := some "hello", contact_name := some "Bob", message_id := some 7 }

def mdNoInst : MessageData :=
  { instance_id := none, phone_number := some "9876543210",
    message := some "hello", contact_name := none, message_id := some 8 }

def mdNoPhone : MessageData :=
  { instance_id := some 1, phone_number := none, message := some "hello",
    contact_name := none, message_id := some 9 }

def provOk : String → Option String → Except String Unit := fun _ _ => .ok ()

def provErr : String → Option String → Except String Unit :=
  fun _ _ => .error "send timeout"

def readySt : SingleState :=
  { currentQR := none, isReady := true, clientInfo := some info0,
    initializationError := none }

def cd1 : ClientData :=
  { isReady := true, clientInfo := some info0, instanceRow := inst1 }

def reg1 : RegState := { activeClients := [(1, cd1)], pendingQRCodes := [] }

def row1 : DbRow :=
  { is_authenticated := true, qr_code := none, client_info := some info0,
    messages_sent_today := 3 }

def db1 : List (Nat × DbRow) := [(1, row1)]

/-! ### Claim theorems -/

/-- C1: For every SendRequest consumed by the Dispatch Consumer, the provider
send operation is invoked only when the readiness check succeeded: in
single-session mode a provider call implies the global readiness flag was
set; in multi-session mode a provider call implies the registry lookup
`getClient` returned a handle, and `getClient` returns a handle only when
the entry exists with its readiness flag true; in every other case no
provider call is made. -/
theorem sends_only_when_ready
    (st : SingleState) (raw : Option MessageData)
    (prov : String → Option String → Except String Unit)
    (reg : RegState) (db : List (Nat × DbRow)) (raw2 : Option MessageData)
    (counterPersistOk : Bool) (i : Nat) :
    ((singleProcess st raw prov).providerCalls ≠ [] → st.isReady = true)
    ∧ ((multiProcess reg db raw2 prov counterPersistOk).1.providerCalls ≠ [] →
        ∃ md j, raw2 = some md ∧ md.instance_id = some j ∧ getClient reg j = true)
    ∧ (getClient reg i = true →
        ∃ cd, alGet reg.activeClients i = some cd ∧ cd.isReady = true) := by
  refine ⟨?_, ?_, ?_⟩
  · intro h
    cases raw with
    | none => simp [singleProcess] at h
    | some md =>
        cases hr : st.isReady with
        | true => rfl
        | false => simp [singleProcess, hr] at h
  · intro h
    cases raw2 with
    | none => simp [multiProcess] at h
    | some md =>
        cases hmi : md.instance_id with
        | none => simp [multiProcess, hmi] at h
        | some j =>
            cases hgc : getClient reg j with
            | false => simp [multiProcess, hmi, hgc] at h
            | true => exact ⟨md, j, rfl, hmi, hgc⟩
  · intro h
    cases hga : alGet reg.activeClients i with
    | none => simp [getClient, hga] at h
    | some cd =>
        refine ⟨cd, rfl, ?_⟩
        simpa [getClient, hga] using h

/-- C1 witness: at a ready single-session state and a ready registry entry,
the provider is actually called, and the readiness facts follow by the
theorem. -/
theorem sends_only_when_ready_witness :
    readySt.isReady = true
    ∧ (∃ md j, (some md0 : Option MessageData) = some md
          ∧ md.instance_id = some j ∧ getClient reg1 j = true)
    ∧ (∃ cd, alGet reg1.activeClients 1 = some cd ∧ cd.isReady = true) := by
  refine ⟨?_, ?_, ?_⟩
  · exact (sends_only_when_ready readySt (some md0) provOk reg1 db1 (some md0)
      true 1).1 (by decide)
  · exact (sends_only_when_ready readySt (some md0) provOk reg1 db1 (some md0)
      true 1).2.1 (by decide)
  · exact (sends_only_when_ready readySt (some md0) provOk reg1 db1 (some md0)
      true 1).2.2 (by decide)

/-- C2: a well-formed SendRequest (parsed, and in multi-session mode carrying
its `instance_id`) whose target session is absent or not ready is nacked
with requeue, exactly one `message_failed` event with the not-ready reason
is published, and the provider is not invoked. -/
theorem not_ready_rejected_with_requeue
    (st : SingleState) (md : MessageData)
    (prov : String → Option String → Except String Unit)
    (reg : RegState) (db : List (Nat × DbRow)) (md2 : MessageData)
    (counterPersistOk : Bool) (i : Nat) :
    (st.isReady = false →
      singleProcess st (some md) prov =
        { ack := .nackRequeue,
          events := [{ status := .message_failed, message_id := md.message_id,
                       phone_number := md.phone_number,
                       error := some "WhatsApp client not ready" }],
          providerCalls := [], delayMs := 0 })
    ∧ (md2.instance_id = some i → getClient reg i = false →
        multiProcess reg db (some md2) prov counterPersistOk =
          ({ ack := .nackRequeue,
             events := [{ status := .message_failed, message_id := md2.message_id,
                          instance_id := some i, phone_number := md2.phone_number,
                          error := some "Instance not ready or not found" }],
             providerCalls := [], delayMs := 0 }, db)) := by
  constructor
  · intro h
    simp [singleProcess, h]
  · intro hi hg
    simp [multiProcess, hi, hg]

/-- C2 witness: an unready single-session state and an empty registry both
yield the requeueing rejection on a well-formed request. -/
theorem not_ready_rejected_with_requeue_witness :
    (singleProcess {} (some md0) provOk).ack = Ack.nackRequeue ∧
    (multiProcess {} [] (some md0) provOk true).1.ack = Ack.nackRequeue := by
  constructor
  · rw [(not_ready_rejected_with_requeue {} md0 provOk {} [] md0 true 1).1 rfl]
  · rw [(not_ready_rejected_with_requeue {} md0 provOk {} [] md0 true 1).2
      (by decide) (by decide)]

/-- C3: when the session resolved as ready and the provider send operation
throws, the delivery is nacked without requeue and exactly one
`message_failed` event carrying the provider error detail is published; the
request is never requeued (and the provider was invoked exactly once). -/
theorem provider_error_rejected_no_requeue
    (st : SingleState) (md : MessageData) (pn e : String)
    (prov : String → Option String → Except String Unit)
    (reg : RegState) (db : List (Nat × DbRow)) (md2 : MessageData)
    (pn2 e2 : String) (i : Nat) (counterPersistOk : Bool) :
    (st.isReady = true → md.phone_number = some pn →
      prov (formatNumber pn) md.message = .error e →
      singleProcess st (some md) prov =
        { ack := .nackNoRequeue,
          events := [{ status := .message_failed, message_id := md.message_id,
                       phone_number := md.phone_number, error := some e }],
          providerCalls := [(formatNumber pn, md.message)], delayMs := 0 })
    ∧ (md2.instance_id = some i → getClient reg i = true →
        md2.phone_number = some pn2 →
        prov (formatNumber pn2) md2.message = .error e2 →
        multiProcess reg db (some md2) prov counterPersistOk =
          ({ ack := .nackNoRequeue,
             events := [{ status := .message_failed, message_id := md2.message_id,
                          instance_id := some i, phone_number := md2.phone_number,
                          error := some e2 }],
             providerCalls := [(formatNumber pn2, md2.message)], delayMs := 0 },
           db)) := by
  constructor
  · intro h1 h2 h3
    simp [singleProcess, h1, h2, h3]
  · intro h1 h2 h3 h4
    simp [multiProcess, sendMessage, h1, h2, h3, h4]

/-- C3 witness: a failing provider at a ready session yields the permanent
rejection in both modes. -/
theorem provider_error_rejected_no_requeue_witness :
    (singleProcess readySt (some md0) provErr).ack = Ack.nackNoRequeue ∧
    (multiProcess reg1 db1 (some md0) provErr true).1.ack = Ack.nackNoRequeue := by
  constructor
  · rw [(provider_error_rejected_no_requeue readySt md0 "9876543210" "send timeout"
      provErr reg1 db1 md0 "9876543210" "send timeout" 1 true).1 rfl rfl rfl]
  · rw [(provider_error_rejected_no_requeue readySt md0 "9876543210" "send timeout"
      provErr reg1 db1 md0 "9876543210" "send timeout" 1 true).2
      (by decide) (by decide) (by decide) rfl]

/-- C4 counterexample: an unparseable payload (one on which `JSON.parse`
throws) is neither nacked nor acked and produces no `message_failed` event
in either consumer — the catch block re-parses the same content, throws
again, and the delivery is left unacknowledged — contradicting the claimed
`nack(requeue=false)` with one malformed-request `message_failed` event. -/
theorem malformed_unacked_counterexample :
    (multiProcess {} [] none provOk true).1.ack = Ack.unacked ∧
    (multiProcess {} [] none provOk true).1.events = [] ∧
    (singleProcess readySt none provOk).ack = Ack.unacked ∧
    (singleProcess readySt none provOk).events = [] :=
  ⟨rfl, rfl, rfl, rfl⟩

/-- C4 amended: only a missing `instance_id` in multi-session mode is handled
as claimed — every delivery of such a message is nacked with requeue=false,
one `message_failed` event is published, and the provider is never called
(the consumer is a pure function of the registry state and payload, so
identical redeliveries repeat the identical outcome).  An unparseable
payload instead makes the error handler itself throw while re-parsing it,
so that delivery ends with no ack, no nack, and no status event.
`destination` and `body` are never validated: a message lacking them is
requeued when the target session is not ready, and when the session is
ready a missing destination raises a runtime `TypeError` that is handled as
a send failure — nack with requeue=false and a `message_failed` event
carrying the runtime error text, not a malformed-request reason. -/
theorem malformed_handling_amended
    (reg : RegState) (db : List (Nat × DbRow)) (md : MessageData)
    (prov : String → Option String → Except String Unit)
    (counterPersistOk : Bool) (i : Nat) :
    (md.instance_id = none →
      multiProcess reg db (some md) prov counterPersistOk =
        ({ ack := .nackNoRequeue,
           events := [{ status := .message_failed, message_id := md.message_id,
                        phone_number := md.phone_number,
                        error := some "No instance_id provided" }],
           providerCalls := [], delayMs := 0 }, db))
    ∧ (multiProcess reg db none prov counterPersistOk =
        ({ ack := .unacked, events := [], providerCalls := [], delayMs := 0 }, db))
    ∧ (md.instance_id = some i → getClient reg i = false →
        (multiProcess reg db (some md) prov counterPersistOk).1.ack = .nackRequeue)
    ∧ (md.instance_id = some i → getClient reg i = true → md.phone_number = none →
        multiProcess reg db (some md) prov counterPersistOk =
          ({ ack := .nackNoRequeue,
             events := [{ status := .message_failed, message_id := md.message_id,
                          instance_id := some i, phone_number := none,
                          error := some "TypeError: Cannot read properties of undefined" }],
             providerCalls := [], delayMs := 0 }, db)) := by
  refine ⟨?_, rfl, ?_, ?_⟩
  · intro h
    simp [multiProcess, h]
  · intro hi hg
    simp [multiProcess, hi, hg]
  · intro hi hg hp
    simp [multiProcess, sendMessage, hi, hg, hp]

/-- C4 witness: a message without `instance_id` is permanently rejected; a
message without a destination is requeued at an empty registry but
permanently rejected at a ready one. -/
theorem malformed_handling_witness :
    (multiProcess {} [] (some mdNoInst) provOk true).1.ack = Ack.nackNoRequeue ∧
    (multiProcess {} [] (some mdNoPhone) provOk true).1.ack = Ack.nackRequeue ∧
    (multiProcess reg1 db1 (some mdNoPhone) provOk true).1.ack = Ack.nackNoRequeue := by
  refine ⟨?_, ?_, ?_⟩
  · rw [(malformed_handling_amended {} [] mdNoInst provOk true 1).1 rfl]
  · exact (malformed_handling_amended {} [] mdNoPhone provOk true 1).2.2.1
      rfl (by decide)
  · rw [(malformed_handling_amended reg1 db1 mdNoPhone provOk true 1).2.2.2
      rfl (by decide) rfl]

/-- C5: destination normalization first removes every non-digit character,
prepends "91" exactly when the digit string has length 10 and does not
already start with "91", then appends "@c.us" — the code's `formatNumber`
agrees with the spec's description on every input, and on the spec's two
examples. -/
theorem phone_normalization :
    (∀ s : String, formatNumber s = normalizeDestinationSpec s) ∧
    formatNumber "+91 98765-43210" = "919876543210@c.us" ∧
    formatNumber "9876543210" = "919876543210@c.us" := by
  refine ⟨?_, by decide, by decide⟩
  intro s
  unfold formatNumber normalizeDestinationSpec
  rw [Bool.and_comm]

/-- C6 counterexample: after the callback sequence qr then disconnected, the
spec lifecycle state is `disconnected` (out of `qr_pending`) while the
stored pending-QR token is still present in the registry — the disconnected
handler never touches `pendingQRCodes` — so "pending QR stored iff
lifecycle state is qr_pending" and "every transition out of qr_pending
clears the token" both fail. -/
theorem pending_qr_counterexample :
    lifecycleState [WAEvent.qr "tok", WAEvent.disconnected "gone"]
      = LState.disconnected ∧
    getQRCode (applyEvents inst1 (initMState inst1)
      [WAEvent.qr "tok", WAEvent.disconnected "gone"]).reg 1 = some "tok" := by
  exact ⟨rfl, by decide⟩

/-- C6 amended: the stored pending-QR token is set by each qr callback and
cleared only by the ready callback; disconnected and authenticated
callbacks leave the `pendingQRCodes` map unchanged.  Consequently, over any
callback sequence from registration, the stored token equals the token of
the trace's last qr callback not followed by a ready callback, it is
present iff a qr callback occurred after the last ready callback, and any
trace ending in ready has no stored token. -/
theorem pending_qr_amended :
    (∀ (inst : InstanceRow) (evs : List WAEvent),
        getQRCode (applyEvents inst (initMState inst) evs).reg inst.id
          = tokenOfTrace evs) ∧
    (∀ (inst : InstanceRow) (evs : List WAEvent),
        (getQRCode (applyEvents inst (initMState inst) evs).reg inst.id).isSome
          = qrSinceLastReady evs) ∧
    (∀ (ms : MState) (inst : InstanceRow) (r : String),
        (multiApply ms inst (.disconnected r)).1.reg.pendingQRCodes
          = ms.reg.pendingQRCodes) ∧
    (∀ (ms : MState) (inst : InstanceRow),
        (multiApply ms inst .authenticated).1.reg.pendingQRCodes
          = ms.reg.pendingQRCodes) ∧
    (∀ (inst : InstanceRow) (evs : List WAEvent) (info : ClientInfo),
        getQRCode (applyEvents inst (initMState inst)
          (evs ++ [.ready info])).reg inst.id = none) := by
  have key : ∀ (inst : InstanceRow) (evs : List WAEvent),
      getQRCode (applyEvents inst (initMState inst) evs).reg inst.id
        = tokenOfTrace evs := by
    intro inst evs
    have h0 : (initMState inst).reg.pendingQRCodes = optQR inst.id none := rfl
    have := pendingQR_trace inst evs (initMState inst) none h0
    rw [getQRCode, this, alGet_optQR]
    rfl
  refine ⟨key, ?_, ?_, ?_, ?_⟩
  · intro inst evs
    rw [key inst evs, tokenOfTrace, foldl_tokenStep_isSome]
    rfl
  · intro ms inst r
    rfl
  · intro ms inst
    rfl
  · intro inst evs info
    rw [key inst (evs ++ [WAEvent.ready info])]
    simp [tokenOfTrace, List.foldl_append, tokenStep]

/-- C7 counterexample: instance 1 is registered and receives ready then
disconnected; afterwards the registry entry is still present with the
cached client identity retained (only the readiness flag dropped), and a
discovery pass over a store still listing the instance as active changes
nothing — contradicting "the registry entry is removed", "cached client
identity is cleared", and "the Instance Discovery Loop recreates it". -/
theorem disconnected_keeps_entry_counterexample :
    (applyEvents inst1 (initMState inst1)
        [WAEvent.ready info0, WAEvent.disconnected "gone"]).reg.activeClients
      = [(1, { isReady := false, clientInfo := some info0, instanceRow := inst1 })] ∧
    pollForNewInstances (applyEvents inst1 (initMState inst1)
        [WAEvent.ready info0, WAEvent.disconnected "gone"]).reg [inst1]
      = (applyEvents inst1 (initMState inst1)
          [WAEvent.ready info0, WAEvent.disconnected "gone"]).reg := by
  exact ⟨by decide, by decide⟩

/-- C7 amended: on a disconnected callback the entry's readiness flag is set
to false, the external store row gets `is_authenticated = FALSE` and a
cleared QR column, and one `disconnected` status event is emitted; but the
cached client identity is retained, the `pendingQRCodes` map is untouched,
the registry entry is not removed, and the Instance Discovery Loop — which
only registers instances absent from the registry — leaves the entry
exactly as the disconnect left it, so the session is not recreated. -/
theorem disconnected_amended (reg : RegState) (db : List (Nat × DbRow))
    (inst : InstanceRow) (r : String) (cd : ClientData) (row : DbRow)
    (hc : alGet reg.activeClients inst.id = some cd)
    (hr : alGet db inst.id = some row) :
    alGet (multiApply ⟨reg, db⟩ inst (.disconnected r)).1.reg.activeClients inst.id
      = some { cd with isReady := false } ∧
    (multiApply ⟨reg, db⟩ inst (.disconnected r)).1.reg.pendingQRCodes
      = reg.pendingQRCodes ∧
    alGet (multiApply ⟨reg, db⟩ inst (.disconnected r)).1.db inst.id
      = some { row with is_authenticated := false, qr_code := none } ∧
    (multiApply ⟨reg, db⟩ inst (.disconnected r)).2
      = [{ status := .disconnected, instance_id := some inst.id,
           organization_id := some inst.organization_id }] ∧
    (∀ store : List InstanceRow,
        alGet (pollForNewInstances
            (multiApply ⟨reg, db⟩ inst (.disconnected r)).1.reg store).activeClients
          inst.id = some { cd with isReady := false }) := by
  have h1 : alGet (multiApply ⟨reg, db⟩ inst (.disconnected r)).1.reg.activeClients
      inst.id = some { cd with isReady := false } := by
    simp [multiApply, alGet_alUpdate_self, hc]
  refine ⟨h1, rfl, ?_, rfl, ?_⟩
  · simp [multiApply, alGet_alUpdate_self, hr]
  · intro store
    exact alGet_foldl_initClient (fetchInstances store) _ _ _ h1

/-- C7 witness: the amended behavior at the concrete ready registry entry. -/
theorem disconnected_amended_witness :
    alGet (multiApply ⟨reg1, db1⟩ inst1 (.disconnected "gone")).1.reg.activeClients
      inst1.id = some { cd1 with isReady := false } ∧
    alGet (pollForNewInstances
        (multiApply ⟨reg1, db1⟩ inst1 (.disconnected "gone")).1.reg
        [inst1]).activeClients inst1.id = some { cd1 with isReady := false } := by
  have h := disconnected_amended reg1 db1 inst1 "gone" cd1 row1 (by decide) (by decide)
  exact ⟨h.1, h.2.2.2.2 [inst1]⟩

/-- C8 counterexample: a delivery that ends in permanent rejection (provider
send error at a ready session) is followed by no delay at all — the
rate-limit sleep sits only on the success path — contradicting the claimed
fixed 1-second delay after every processed request regardless of outcome. -/
theorem delay_counterexample :
    (singleProcess readySt (some md0) provErr).ack = Ack.nackNoRequeue ∧
    (singleProcess readySt (some md0) provErr).delayMs = 0 ∧
    (multiProcess {} [] (some md0) provOk true).1.ack = Ack.nackRequeue ∧
    (multiProcess {} [] (some md0) provOk true).1.delayMs = 0 := by
  refine ⟨by decide, by decide, by decide, by decide⟩

/-- C8 amended: the fixed 1000 ms delay is applied exactly when the delivery
was acked (a successful provider send); every rejection path — requeue for
unreadiness, permanent rejection for malformed input or provider error, and
the unacknowledged parse-failure path — proceeds to the next delivery with
no delay, in both consumers. -/
theorem delay_only_after_success
    (st : SingleState) (raw : Option MessageData)
    (prov : String → Option String → Except String Unit)
    (reg : RegState) (db : List (Nat × DbRow)) (raw2 : Option MessageData)
    (counterPersistOk : Bool) :
    (singleProcess st raw prov).delayMs
      = (if (singleProcess st raw prov).ack = Ack.ack then 1000 else 0) ∧
    (multiProcess reg db raw2 prov counterPersistOk).1.delayMs
      = (if (multiProcess reg db raw2 prov counterPersistOk).1.ack = Ack.ack
         then 1000 else 0) := by
  constructor
  · cases raw with
    | none => rfl
    | some md =>
        cases hr : st.isReady with
        | false => simp [singleProcess, hr]
        | true =>
            cases hp : md.phone_number with
            | none => simp [singleProcess, hr, hp]
            | some pn =>
                cases hpr : prov (formatNumber pn) md.message with
                | ok u => simp [singleProcess, hr, hp, hpr]
                | error e => simp [singleProcess, hr, hp, hpr]
  · cases raw2 with
    | none => rfl
    | some md =>
        cases hmi : md.instance_id with
        | none => simp [multiProcess, hmi]
        | some i =>
            cases hg : getClient reg i with
            | false => simp [multiProcess, hmi, hg]
            | true =>
                cases hp : md.phone_number with
                | none => simp [multiProcess, sendMessage, hmi, hg, hp]
                | some pn =>
                    cases hpr : prov (formatNumber pn) md.message with
                    | ok u => simp [multiProcess, sendMessage, hmi, hg, hp, hpr]
                    | error e => simp [multiProcess, sendMessage, hmi, hg, hp, hpr]

/-- C9: on a successful provider send in multi-session mode the delivery is
acked, exactly one `message_sent` event carrying the destination and
correlation echo and a sent-at timestamp is published, and the target
session's `messages_sent_today` counter is incremented by exactly 1; a
failure persisting the counter leaves ack and events identical (and the
counter unchanged).  The single-session success path likewise acks and
publishes exactly one `message_sent` event. -/
theorem success_path_effects
    (reg : RegState) (db : List (Nat × DbRow)) (md : MessageData)
    (prov : String → Option String → Except String Unit)
    (i : Nat) (pn : String) (row : DbRow) (st : SingleState) (md2 : MessageData)
    (pn2 : String)
    (hi : md.instance_id = some i)
    (hg : getClient reg i = true)
    (hp : md.phone_number = some pn)
    (hpr : prov (formatNumber pn) md.message = .ok ())
    (hrow : alGet db i = some row)
    (hst : st.isReady = true)
    (hp2 : md2.phone_number = some pn2)
    (hpr2 : prov (formatNumber pn2) md2.message = .ok ()) :
    (multiProcess reg db (some md) prov true).1.ack = Ack.ack ∧
    (multiProcess reg db (some md) prov true).1.events
      = [{ status := .message_sent, message_id := md.message_id,
           instance_id := some i, phone_number := md.phone_number,
           contact_name := md.contact_name, has_sent_at := true }] ∧
    alGet (multiProcess reg db (some md) prov true).2 i
      = some { row with messages_sent_today := row.messages_sent_today + 1 } ∧
    (multiProcess reg db (some md) prov false).1.ack
      = (multiProcess reg db (some md) prov true).1.ack ∧
    (multiProcess reg db (some md) prov false).1.events
      = (multiProcess reg db (some md) prov true).1.events ∧
    alGet (multiProcess reg db (some md) prov false).2 i = some row ∧
    (singleProcess st (some md2) prov).ack = Ack.ack ∧
    (singleProcess st (some md2) prov).events
      = [{ status := .message_sent, message_id := md2.message_id,
           phone_number := md2.phone_number,
           contact_name := md2.contact_name, has_sent_at := true }] := by
  refine ⟨?_, ?_, ?_, ?_, ?_, ?_, ?_, ?_⟩
  · simp [multiProcess, sendMessage, hi, hg, hp, hpr]
  · simp [multiProcess, sendMessage, hi, hg, hp, hpr]
  · simp [multiProcess, sendMessage, hi, hg, hp, hpr, alGet_alUpdate_self, hrow]
  · simp [multiProcess, sendMessage, hi, hg, hp, hpr]
  · simp [multiProcess, sendMessage, hi, hg, hp, hpr]
  · simp [multiProcess, sendMessage, hi, hg, hp, hpr, hrow]
  · simp [singleProcess, hst, hp2, hpr2]
  · simp [singleProcess, hst, hp2, hpr2]

/-- C9 witness: the success path at the concrete ready instance — acked, one
sent event, counter bumped from 3 to 4, and identical ack with the counter
untouched when the persist fails. -/
theorem success_path_effects_witness :
    (multiProcess reg1 db1 (some md0) provOk true).1.ack = Ack.ack ∧
    alGet (multiProcess reg1 db1 (some md0) provOk true).2 1
      = some { row1 with messages_sent_today := row1.messages_sent_today + 1 } ∧
    alGet (multiProcess reg1 db1 (some md0) provOk false).2 1 = some row1 ∧
    (singleProcess readySt (some md0) provOk).ack = Ack.ack := by
  have h := success_path_effects reg1 db1 md0 provOk 1 "9876543210" row1 readySt
    md0 "9876543210" (by decide) (by decide) (by decide) rfl (by decide) rfl
    (by decide) rfl
  exact ⟨h.1, h.2.2.1, h.2.2.2.2.2.1, h.2.2.2.2.2.2.1⟩

/-- C10: in the single-session variant a qr callback in any state stores the
new token and drops the readiness flag, and through any further callback
sequence containing no ready callback the flag stays false, so every
SendRequest consumed in that window is nacked with requeue=true and the
provider is never invoked. -/
theorem single_qr_blocks_until_ready
    (st : SingleState) (t : String) (evs : List WAEvent)
    (h : ∀ e ∈ evs, isReadyEvt e = false) :
    (singleApply st (.qr t)).1.currentQR = some t ∧
    (singleApply st (.qr t)).1.isReady = false ∧
    (applySingle (singleApply st (.qr t)).1 evs).isReady = false ∧
    (∀ (md : MessageData) (prov : String → Option String → Except String Unit),
        (singleProcess (applySingle (singleApply st (.qr t)).1 evs) (some md)
            prov).ack = Ack.nackRequeue ∧
        (singleProcess (applySingle (singleApply st (.qr t)).1 evs) (some md)
            prov).providerCalls = []) := by
  have h1 : (singleApply st (.qr t)).1.isReady = false := rfl
  have h2 := isReady_false_preserved evs _ h1 h
  refine ⟨rfl, h1, h2, ?_⟩
  intro md prov
  constructor <;> simp [singleProcess, h2]

/-- C10 witness: a qr callback at a ready state followed by authenticated and
disconnected callbacks leaves the flag down and the concrete request
requeued without a provider call. -/
theorem single_qr_blocks_until_ready_witness :
    (singleApply readySt (.qr "tok")).1.currentQR = some "tok" ∧
    (applySingle (singleApply readySt (.qr "tok")).1
        [WAEvent.authenticated, WAEvent.disconnected "x"]).isReady = false ∧
    (singleProcess (applySingle (singleApply readySt (.qr "tok")).1
        [WAEvent.authenticated, WAEvent.disconnected "x"]) (some md0) provOk).ack
      = Ack.nackRequeue := by
  have h := single_qr_blocks_until_ready readySt "tok"
    [WAEvent.authenticated, WAEvent.disconnected "x"] (by decide)
  exact ⟨h.1, h.2.2.1, (h.2.2.2 md0 provOk).1⟩
